import Mathlib

/-!
Shallow embedding of the Card Presence & Read Orchestration Engine of
ninyawee/pythaiidcard: `CardMonitorService` (src/api_server/services/card_monitor.py)
and the facade routes (src/api_server/routes/api.py).

Hardware interactions (reader enumeration, connect, read) are external inputs:
each operation takes the outcome the driver would produce as an explicit
argument.  Reader handles are modelled as natural numbers so that handle
identity (a leaked stale handle versus a fresh one) is observable.  Timestamps
are natural numbers.  The photo-to-base64 serialization of the broadcast
payload is pure presentation encoding of the record; events carry the record
itself together with the `cached` flag and `read_at` value that the code puts
in the payload.
-/

namespace CardMonitorService

/-- CardRecord produced by the driver (pythaiidcard.models.ThaiIDCard);
opaque payload for the engine: a cid plus optional photo bytes. -/
structure ThaiIDCard where
  cid : String
  photo : Option (List Nat)
deriving Repr, DecidableEq

/-- The typed faults of pythaiidcard.exceptions that the engine matches on,
plus a catch-all for any other exception. -/
inductive CardFault where
  | noCardDetected
  | cardConnectionError
  | dataReadError
  | commandError
  | otherError (msg : String)
deriving Repr, DecidableEq

/-- Faults caught by the read-time handler tuple
`except (NoCardDetectedError, CardConnectionError, DataReadError, CommandError)`
in read_and_broadcast. -/
def CardFault.isTyped : CardFault → Bool
  | .noCardDetected => true
  | .cardConnectionError => true
  | .dataReadError => true
  | .commandError => true
  | .otherError _ => false

/-- Faults caught by the presence-check handler tuple
`except (NoCardDetectedError, CardConnectionError)` in _check_card_presence. -/
def CardFault.isPresenceMiss : CardFault → Bool
  | .noCardDetected => true
  | .cardConnectionError => true
  | _ => false

/-- Outcome of a driver connect attempt: a fresh handle or a fault. -/
inductive ConnectResult where
  | ok (handle : Nat)
  | fault (f : CardFault)
deriving Repr, DecidableEq

/-- Outcome of a driver read_card call: a record or a fault. -/
inductive ReadResult where
  | ok (card : ThaiIDCard)
  | fault (f : CardFault)
deriving Repr, DecidableEq

/-- WebSocketEventType values used by the service. -/
inductive EventType where
  | readerStatus
  | cardInserted
  | cardRemoved
  | cardRead
  | error
deriving Repr, DecidableEq

/-- The `data` payload of an event: either a status dict or a card payload
(the record, the `cached` flag, and the `read_at` value). -/
inductive EventData where
  | statusData (status : String)
  | cardData (card : ThaiIDCard) (cached : Bool) (readAt : Option Nat)
deriving Repr, DecidableEq

/-- WebSocketEvent as constructed at the broadcast sites of card_monitor.py:
type, message, optional reader name, optional data payload, optional error code. -/
structure WSEvent where
  type : EventType
  message : String
  reader : Option String
  data : Option EventData
  errorCode : Option String
deriving Repr, DecidableEq

/-- Mutable fields of the CardMonitorService instance. -/
structure MonitorState where
  monitoring : Bool
  lastCardData : Option ThaiIDCard
  reader : Option Nat
  currentReaderName : Option String
  cardPresent : Bool
  autoReadOnInsert : Bool
  cacheValid : Bool
  lastReadTimestamp : Option Nat
deriving Repr, DecidableEq

/-- Result of one engine operation: the new state, the events broadcast in
order, and counters for hardware reads performed and reconnect attempts made. -/
structure ReadOutcome where
  state : MonitorState
  events : List WSEvent
  hardwareReads : Nat
  reconnectAttempts : Nat
deriving Repr, DecidableEq

def msgNoReaders : String := "No card readers detected"
def stNoReaders : String := "no_readers"
def msgReaderConnected : String := "Card reader connected"
def stReaderConnected : String := "reader_connected"
def msgCardReadyManual : String := "Card detected - ready for reading"
def msgCardReadingAuto : String := "Card detected - reading automatically..."
def msgCardRemoved : String := "Card removed"
def msgCacheRead : String := "Card data from cache (remove card for fresh read)"
def msgNoReaderConn : String := "No reader connection available"
def codeNoReaderConn : String := "NO_READER_CONNECTION"
def msgReadOk : String := "Card data read successfully"
def msgReconnected : String := "Connection reset - reconnected automatically"
def stReconnected : String := "reconnected"
def msgCardRemovedReconnect : String := "Card removed or not responding"
def msgReadFailedPre : String := "Failed to read card: "
def codeCardReadError : String := "CARD_READ_ERROR"
def msgNoCardApi : String := "No card detected in reader"
def msgCardReadFailedApi : String := "Card read failed"
def msgNoCardDataApi : String := "No card data available"

/-- Event broadcast when the reader list goes empty (card_monitor.py:111). -/
def noReadersEvent : WSEvent :=
  { type := EventType.readerStatus, message := msgNoReaders,
    reader := none, data := some (EventData.statusData stNoReaders),
    errorCode := none }

/-- Event broadcast when a new reader name is seen (card_monitor.py:130). -/
def readerConnectedEvent (readerName : String) : WSEvent :=
  { type := EventType.readerStatus, message := msgReaderConnected,
    reader := some readerName,
    data := some (EventData.statusData stReaderConnected), errorCode := none }

/-- Event broadcast on a new card insertion (card_monitor.py:169). -/
def cardInsertedEvent (readerName : String) (autoRead : Bool) : WSEvent :=
  { type := EventType.cardInserted,
    message := if autoRead then msgCardReadingAuto else msgCardReadyManual,
    reader := some readerName, data := none, errorCode := none }

/-- Event broadcast when the presence check detects removal (card_monitor.py:200). -/
def cardRemovedEvent (readerName : String) : WSEvent :=
  { type := EventType.cardRemoved, message := msgCardRemoved,
    reader := some readerName, data := none, errorCode := none }

/-- Cache-hit CardRead event (card_monitor.py:230): carries the stored record,
`cached = true`, and the stored last_read_timestamp as read_at. -/
def cachedReadEvent (s : MonitorState) (card : ThaiIDCard) : WSEvent :=
  { type := EventType.cardRead, message := msgCacheRead,
    reader := s.currentReaderName,
    data := some (EventData.cardData card true s.lastReadTimestamp),
    errorCode := none }

/-- Error event when no reader connection is held (card_monitor.py:246). -/
def noReaderConnEvent : WSEvent :=
  { type := EventType.error, message := msgNoReaderConn,
    reader := none, data := none, errorCode := some codeNoReaderConn }

/-- Fresh-read CardRead event (card_monitor.py:278): `cached = false`,
read_at is the just-stored timestamp. -/
def freshReadEvent (readerName : Option String) (card : ThaiIDCard) (now : Nat) :
    WSEvent :=
  { type := EventType.cardRead, message := msgReadOk,
    reader := readerName,
    data := some (EventData.cardData card false (some now)), errorCode := none }

/-- Event broadcast after a successful automatic reconnect (card_monitor.py:321). -/
def reconnectedEvent : WSEvent :=
  { type := EventType.readerStatus, message := msgReconnected,
    reader := none, data := some (EventData.statusData stReconnected),
    errorCode := none }

/-- CardRemoved event broadcast when the reconnect attempt fails
(card_monitor.py:332). -/
def cardRemovedReconnectEvent (readerName : Option String) : WSEvent :=
  { type := EventType.cardRemoved, message := msgCardRemovedReconnect,
    reader := readerName, data := none, errorCode := none }

/-- Error event for a non-typed read exception (card_monitor.py:342). -/
def readErrorEvent (msg : String) : WSEvent :=
  { type := EventType.error, message := msgReadFailedPre ++ msg,
    reader := none, data := none, errorCode := some codeCardReadError }

/-- read_and_broadcast (card_monitor.py:211-348).  `readResult` is what the
held handle would return from read_card, `now` the clock at cache-store time,
`reconnectResult` what a reconnect attempt on index 0 would produce. -/
def read_and_broadcast (s : MonitorState) (includePhoto : Bool)
    (readResult : ReadResult) (now : Nat) (reconnectResult : ConnectResult) :
    ReadOutcome :=
  match s.cacheValid, s.lastCardData with
  | true, some card =>
    { state := s
      events := [cachedReadEvent s card]
      hardwareReads := 0
      reconnectAttempts := 0 }
  | _, _ =>
    match s.reader with
    | none =>
      { state := s
        events := [noReaderConnEvent]
        hardwareReads := 0
        reconnectAttempts := 0 }
    | some _ =>
      match readResult with
      | ReadResult.ok card =>
        { state := { s with lastCardData := some card, cacheValid := true,
                            lastReadTimestamp := some now }
          events := [freshReadEvent s.currentReaderName card now]
          hardwareReads := 1
          reconnectAttempts := 0 }
      | ReadResult.fault (CardFault.otherError msg) =>
        { state := s
          events := [readErrorEvent msg]
          hardwareReads := 1
          reconnectAttempts := 0 }
      | ReadResult.fault _ =>
        match reconnectResult with
        | ConnectResult.ok h2 =>
          { state := { s with reader := some h2, cardPresent := true }
            events := [reconnectedEvent]
            hardwareReads := 1
            reconnectAttempts := 1 }
        | ConnectResult.fault _ =>
          { state := { s with reader := none, cardPresent := false }
            events := [cardRemovedReconnectEvent s.currentReaderName]
            hardwareReads := 1
            reconnectAttempts := 1 }

/-- _check_card_presence (card_monitor.py:145-209).  `connectResult` is what
`ThaiIDCardReader(reader_index=0).connect()` would produce; the remaining
oracle arguments feed the nested read when auto-read-on-insert is enabled. -/
def check_card_presence (s : MonitorState) (readerName : String)
    (connectResult : ConnectResult) (readResult : ReadResult) (now : Nat)
    (reconnectResult : ConnectResult) : ReadOutcome :=
  if s.cardPresent && s.reader.isSome then
    { state := s, events := [], hardwareReads := 0, reconnectAttempts := 0 }
  else
    match connectResult with
    | ConnectResult.ok h =>
      if s.autoReadOnInsert then
        let o := read_and_broadcast
          { s with cardPresent := true, reader := some h } true
          readResult now reconnectResult
        { o with events := cardInsertedEvent readerName s.autoReadOnInsert :: o.events }
      else
        { state := { s with cardPresent := true, reader := some h }
          events := [cardInsertedEvent readerName s.autoReadOnInsert]
          hardwareReads := 0
          reconnectAttempts := 0 }
    | ConnectResult.fault f =>
      match f.isPresenceMiss, s.cardPresent with
      | true, true =>
        { state := { s with cardPresent := false, cacheValid := false,
                            reader := none }
          events := [cardRemovedEvent readerName]
          hardwareReads := 0
          reconnectAttempts := 0 }
      | _, _ =>
        { state := s, events := [], hardwareReads := 0, reconnectAttempts := 0 }

/-- _check_readers (card_monitor.py:100-143), one poll iteration body.
`readers` is the enumeration result of ThaiIDCardReader.list_readers(). -/
def check_readers (s : MonitorState) (readers : List String)
    (connectResult : ConnectResult) (readResult : ReadResult) (now : Nat)
    (reconnectResult : ConnectResult) : ReadOutcome :=
  match readers with
  | [] =>
    if s.currentReaderName.isSome then
      { state := { s with currentReaderName := none, cardPresent := false }
        events := [noReadersEvent]
        hardwareReads := 0
        reconnectAttempts := 0 }
    else
      { state := s, events := [], hardwareReads := 0, reconnectAttempts := 0 }
  | readerName :: _ =>
    if s.currentReaderName = some readerName then
      check_card_presence s readerName connectResult readResult now reconnectResult
    else
      let s2 : MonitorState := { s with currentReaderName := some readerName }
      let o := check_card_presence s2 readerName connectResult readResult now
        reconnectResult
      { o with events := readerConnectedEvent readerName :: o.events }

/-- stop_monitoring (card_monitor.py:89-98): clears the monitoring flag and
disconnects and drops any held handle. -/
def stop_monitoring (s : MonitorState) : MonitorState :=
  { s with monitoring := false, reader := none }

/-- The state mutation of start_monitoring before entering its loop
(card_monitor.py:64): sets the monitoring flag; each loop iteration is
check_readers. -/
def start_monitoring_flagset (s : MonitorState) : MonitorState :=
  { s with monitoring := true }

/-- clear_cache (card_monitor.py:387-400): returns whether an entry existed,
together with the updated state. -/
def clear_cache (s : MonitorState) : Bool × MonitorState :=
  if s.cacheValid || s.lastCardData.isSome then
    (true, { s with cacheValid := false, lastCardData := none,
                    lastReadTimestamp := none })
  else
    (false, s)

/-- The dict returned by get_status (card_monitor.py:359-371). -/
structure StatusDict where
  monitoring : Bool
  reader_name : Option String
  card_present : Bool
  last_read : Option ThaiIDCard
deriving Repr, DecidableEq

/-- get_status (card_monitor.py:359-371). -/
def get_status (s : MonitorState) : StatusDict :=
  { monitoring := s.monitoring, reader_name := s.currentReaderName,
    card_present := s.cardPresent, last_read := s.lastCardData }

/-- CardReadResponse as used by the facade routes (photo stripping of the
REST payload is presentation; data carries the record). -/
structure CardReadResponse where
  success : Bool
  data : Option ThaiIDCard
  error : Option String
deriving Repr, DecidableEq

/-- POST /api/card/read (api.py:121-174): the manual read trigger facade.
Returns the response given to the direct caller, together with the outcome
(state and broadcast events) of the underlying engine operation. -/
def api_read_card (s : MonitorState) (includePhoto : Bool)
    (readResult : ReadResult) (now : Nat) (reconnectResult : ConnectResult) :
    CardReadResponse × ReadOutcome :=
  if (get_status s).card_present = false then
    ({ success := false, data := none, error := some msgNoCardApi },
     { state := s, events := [], hardwareReads := 0, reconnectAttempts := 0 })
  else
    let o := read_and_broadcast s includePhoto readResult now reconnectResult
    match (get_status o.state).last_read with
    | some card => ({ success := true, data := some card, error := none }, o)
    | none =>
      ({ success := false, data := none, error := some msgCardReadFailedApi }, o)

/-- GET /api/card/current (api.py:84-118). -/
def api_get_current_card (s : MonitorState) : CardReadResponse :=
  match (get_status s).last_read with
  | some card => { success := true, data := some card, error := none }
  | none => { success := false, data := none, error := some msgNoCardDataApi }

def readerA : String := "ACS ACR122U 00 00"

def cid1 : String := "1234567890123"

def card1 : ThaiIDCard := { cid := cid1, photo := none }

def resetMsg : String := "Card was reset"

def emptyMsg : String := ""

/-- Dummy oracle input for paths where no hardware read happens. -/
def dummyRead : ReadResult := ReadResult.fault (CardFault.otherError emptyMsg)

/-- Dummy oracle input for paths where no connect happens, and the outcome of
a connect attempt while no card is seated. -/
def failConnect : ConnectResult := ConnectResult.fault CardFault.noCardDetected

/-- State after service construction plus start_monitoring setting the flag. -/
def s0 : MonitorState :=
  { monitoring := true, lastCardData := none, reader := none,
    currentReaderName := none, cardPresent := false, autoReadOnInsert := false,
    cacheValid := false, lastReadTimestamp := none }

/-- First poll: reader enumerated, connect finds no card seated. -/
def sIdle : MonitorState :=
  (check_readers s0 [readerA] failConnect dummyRead 0 failConnect).state

/-- Card inserted: connect succeeds with handle 1. -/
def sInserted : MonitorState :=
  (check_readers sIdle [readerA] (ConnectResult.ok 1) dummyRead 0 failConnect).state

/-- Successful manual read of card1 at time 100: snapshot cached. -/
def sCached : MonitorState :=
  (read_and_broadcast sInserted false (ReadResult.ok card1) 100 failConnect).state

/-- Poll sees the reader list empty (reader unplugged, card with it). -/
def sReaderGone : MonitorState :=
  (check_readers sCached [] failConnect dummyRead 0 failConnect).state

/-- Reader replugged with a card seated: connect succeeds with handle 2. -/
def sReinserted : MonitorState :=
  (check_readers sReaderGone [readerA] (ConnectResult.ok 2) dummyRead 0 failConnect).state

/-- stop_monitoring called on the cached state. -/
def sStopped : MonitorState := stop_monitoring sCached

/-- Monitoring started again. -/
def sRestarted : MonitorState := start_monitoring_flagset sStopped

/-- Next poll while the card was pulled during the downtime: connect raises
NoCardDetectedError, the presence check records the removal. -/
def sCardGone : MonitorState :=
  (check_readers sRestarted [readerA] failConnect dummyRead 0 failConnect).state

/-- A card is inserted again: connect succeeds with handle 2. -/
def sSecondInsert : MonitorState :=
  (check_readers sCardGone [readerA] (ConnectResult.ok 2) dummyRead 0 failConnect).state

/-- C1: the claim fails on the code.  After a successful read is cached
(snapshot of card1 at time 100), the reader list goes empty (removal detected
that way: cardPresent and currentReaderName are cleared), and a re-insertion
is registered (reader-connected and CardInserted events), a read request still
serves the prior insertion record as cached data with zero hardware reads: the
empty-reader-list path never clears cache_valid. -/
theorem c1_cache_served_across_reader_removal :
    (sCached.cacheValid = true ∧ sCached.lastReadTimestamp = some 100) ∧
    (sReaderGone.cardPresent = false ∧ sReaderGone.currentReaderName = none ∧
      sReaderGone.cacheValid = true) ∧
    ((check_readers sReaderGone [readerA] (ConnectResult.ok 2) dummyRead 0
        failConnect).events =
      [readerConnectedEvent readerA, cardInsertedEvent readerA false]) ∧
    ((read_and_broadcast sReinserted false dummyRead 200 failConnect).hardwareReads
        = 0) ∧
    ((read_and_broadcast sReinserted false dummyRead 200 failConnect).events =
      [{ type := EventType.cardRead, message := msgCacheRead,
         reader := some readerA,
         data := some (EventData.cardData card1 true (some 100)),
         errorCode := none }]) := by
  decide

/-- C2: the claim fails on the code.  The reader-list-empty transition clears
card_present but keeps the held ReaderHandle (it is neither disconnected nor
dropped), and stop_monitoring drops the handle but leaves card_present true,
so the handle-held-iff-card-present equivalence is not preserved by every
operation. -/
theorem c2_handle_presence_equivalence_broken :
    (sReaderGone.cardPresent = false ∧ sReaderGone.reader = some 1) ∧
    ((stop_monitoring sInserted).cardPresent = true ∧
      (stop_monitoring sInserted).reader = none) := by
  decide

/-- C3: a hardware read failing with any driver-typed fault (the recoverable
class, including connection loss) makes exactly one reconnect attempt; on
success the state keeps the card present with the fresh handle and the cache
not restored and only a ReaderStatus reconnected event is emitted; on failure
card_present is cleared, the handle stays dropped, snapshot validity stays
cleared, and only a CardRemoved event is emitted. -/
theorem c3_read_fault_single_reconnect (s : MonitorState) (includePhoto : Bool)
    (f : CardFault) (hf : f.isTyped = true)
    (h : Nat) (hr : s.reader = some h) (hcv : s.cacheValid = false)
    (now : Nat) (rc : ConnectResult) :
    (read_and_broadcast s includePhoto (ReadResult.fault f) now rc).reconnectAttempts
        = 1 ∧
    (∀ h2, rc = ConnectResult.ok h2 →
      read_and_broadcast s includePhoto (ReadResult.fault f) now rc =
        { state := { s with reader := some h2, cardPresent := true }
          events := [reconnectedEvent]
          hardwareReads := 1
          reconnectAttempts := 1 }) ∧
    (∀ g, rc = ConnectResult.fault g →
      read_and_broadcast s includePhoto (ReadResult.fault f) now rc =
        { state := { s with reader := none, cardPresent := false }
          events := [cardRemovedReconnectEvent s.currentReaderName]
          hardwareReads := 1
          reconnectAttempts := 1 }) := by
  obtain ⟨mon, lcd, rd, crn, cp, ar, cv, ts⟩ := s
  obtain rfl : rd = some h := hr
  obtain rfl : cv = false := hcv
  refine ⟨?_, ?_, ?_⟩
  · cases lcd <;> cases f <;> cases rc <;>
      simp_all [read_and_broadcast, CardFault.isTyped]
  · rintro h2 rfl
    cases lcd <;> cases f <;> simp_all [read_and_broadcast, CardFault.isTyped]
  · rintro g rfl
    cases lcd <;> cases f <;> simp_all [read_and_broadcast, CardFault.isTyped]

/-- C3 witness: the theorem applied to the freshly inserted state, a
connection-lost fault, and a failing reconnect. -/
theorem c3_read_fault_single_reconnect_witness :
    CardFault.isTyped CardFault.cardConnectionError = true ∧
    sInserted.reader = some 1 ∧ sInserted.cacheValid = false ∧
    (read_and_broadcast sInserted false
      (ReadResult.fault CardFault.cardConnectionError) 50 failConnect).reconnectAttempts
        = 1 :=
  ⟨by decide, by decide, by decide,
    (c3_read_fault_single_reconnect sInserted false CardFault.cardConnectionError
      (by decide) 1 (by decide) (by decide) 50 failConnect).1⟩

/-- C4: the claim fails on the code.  In a state reachable by a successful
read, a stop/restart with the card pulled in between (removal detected, record
retained with validity cleared), and a second insertion, a manual read whose
hardware read fails broadcasts an Error event to subscribers while the direct
caller is given success with the stale record of the earlier insertion,
because the facade treats a non-null last_read as proof of success. -/
theorem c4_caller_success_disagrees_with_error_broadcast :
    ((api_read_card sSecondInsert true
        (ReadResult.fault (CardFault.otherError resetMsg)) 300 failConnect).1.success
        = true) ∧
    ((api_read_card sSecondInsert true
        (ReadResult.fault (CardFault.otherError resetMsg)) 300 failConnect).1.data
        = some card1) ∧
    ((api_read_card sSecondInsert true
        (ReadResult.fault (CardFault.otherError resetMsg)) 300 failConnect).2.events
        = [readErrorEvent resetMsg]) ∧
    (readErrorEvent resetMsg).type = EventType.error ∧
    (readErrorEvent resetMsg).errorCode = some codeCardReadError := by
  decide

/-- C5: in a CardPresentCached state (card present, validity set, record
stored) a read request performs no hardware access, makes no reconnect
attempt, leaves the state unchanged, and emits exactly one CardRead event
carrying the identical stored record marked cached with the stored original
read timestamp as read_at. -/
theorem c5_cached_state_read_serves_snapshot (s : MonitorState)
    (card : ThaiIDCard) (hcp : s.cardPresent = true)
    (hcv : s.cacheValid = true) (hlc : s.lastCardData = some card)
    (includePhoto : Bool) (rr : ReadResult) (now : Nat) (rc : ConnectResult) :
    (read_and_broadcast s includePhoto rr now rc).hardwareReads = 0 ∧
    (read_and_broadcast s includePhoto rr now rc).reconnectAttempts = 0 ∧
    (read_and_broadcast s includePhoto rr now rc).state = s ∧
    (read_and_broadcast s includePhoto rr now rc).events =
      [{ type := EventType.cardRead, message := msgCacheRead,
         reader := s.currentReaderName,
         data := some (EventData.cardData card true s.lastReadTimestamp),
         errorCode := none }] := by
  obtain ⟨mon, lcd, rd, crn, cp, ar, cv, ts⟩ := s
  obtain rfl : cv = true := hcv
  obtain rfl : lcd = some card := hlc
  simp [read_and_broadcast, cachedReadEvent]

/-- C5 witness: the theorem applied to the cached state reached by reading
card1 at time 100. -/
theorem c5_cached_state_read_serves_snapshot_witness :
    sCached.cardPresent = true ∧ sCached.cacheValid = true ∧
    sCached.lastCardData = some card1 ∧
    (read_and_broadcast sCached false dummyRead 200 failConnect).events =
      [{ type := EventType.cardRead, message := msgCacheRead,
         reader := sCached.currentReaderName,
         data := some (EventData.cardData card1 true sCached.lastReadTimestamp),
         errorCode := none }] :=
  ⟨by decide, by decide, by decide,
    (c5_cached_state_read_serves_snapshot sCached card1 (by decide) (by decide)
      (by decide) false dummyRead 200 failConnect).2.2.2⟩

/-- C6: whenever a cache entry exists (validity flag set or a stored record
present), clear_cache returns true and a second immediate call returns
false. -/
theorem c6_clear_cache_true_then_false (s : MonitorState)
    (hc : (s.cacheValid || s.lastCardData.isSome) = true) :
    (clear_cache s).1 = true ∧ (clear_cache (clear_cache s).2).1 = false := by
  simp [clear_cache, hc]

/-- C6 witness: the theorem applied to the cached state. -/
theorem c6_clear_cache_true_then_false_witness :
    (sCached.cacheValid || sCached.lastCardData.isSome) = true ∧
    (clear_cache sCached).1 = true ∧
    (clear_cache (clear_cache sCached).2).1 = false :=
  ⟨by decide, c6_clear_cache_true_then_false sCached (by decide)⟩

/-- C7: a manual read request through the facade while no card is present
returns the no-card failure result, broadcasts no event, performs no hardware
access, and leaves the state unchanged. -/
theorem c7_read_request_without_card (s : MonitorState)
    (hcp : s.cardPresent = false) (includePhoto : Bool) (rr : ReadResult)
    (now : Nat) (rc : ConnectResult) :
    api_read_card s includePhoto rr now rc =
      ({ success := false, data := none, error := some msgNoCardApi },
       { state := s, events := [], hardwareReads := 0, reconnectAttempts := 0 }) := by
  simp [api_read_card, get_status, hcp]

/-- C7 witness: the theorem applied to the initial state. -/
theorem c7_read_request_without_card_witness :
    s0.cardPresent = false ∧
    api_read_card s0 true dummyRead 5 failConnect =
      ({ success := false, data := none, error := some msgNoCardApi },
       { state := s0, events := [], hardwareReads := 0, reconnectAttempts := 0 }) :=
  ⟨by decide, c7_read_request_without_card s0 (by decide) true dummyRead 5 failConnect⟩

/-- C8 counterexample: a read failing with DataReadError in a concrete
connected state triggers a reconnect attempt (one, not zero), the held handle
is discarded rather than kept, and no Error event is emitted, contradicting
the claim that data-level faults surface an error event with the handle kept
and no reconnect. -/
theorem c8_counterexample_data_fault_reconnects :
    ((read_and_broadcast sSecondInsert true
        (ReadResult.fault CardFault.dataReadError) 300 failConnect).reconnectAttempts
        = 1) ∧
    ((read_and_broadcast sSecondInsert true
        (ReadResult.fault CardFault.dataReadError) 300 failConnect).state.reader
        = none) ∧
    ((read_and_broadcast sSecondInsert true
        (ReadResult.fault CardFault.dataReadError) 300 failConnect).events =
      [cardRemovedReconnectEvent (some readerA)]) ∧
    (cardRemovedReconnectEvent (some readerA)).type = EventType.cardRemoved := by
  decide

/-- C8 amended: a hardware read failing with a data-level or command-level
fault is handled identically to a lost connection: the outcome equals that of
a cardConnectionError fault, and with a handle held and the cache invalid the
stale handle is discarded, exactly one automatic reconnect is attempted, and
no event of type Error is emitted. -/
theorem c8_data_faults_treated_as_connection_loss (s : MonitorState)
    (includePhoto : Bool) (now : Nat) (rc : ConnectResult) (f : CardFault)
    (hf : f = CardFault.dataReadError ∨ f = CardFault.commandError) :
    (read_and_broadcast s includePhoto (ReadResult.fault f) now rc =
      read_and_broadcast s includePhoto
        (ReadResult.fault CardFault.cardConnectionError) now rc) ∧
    (∀ h, s.reader = some h → s.cacheValid = false →
      (read_and_broadcast s includePhoto (ReadResult.fault f) now rc).reconnectAttempts
          = 1 ∧
      ∀ e, e ∈ (read_and_broadcast s includePhoto (ReadResult.fault f) now
          rc).events → e.type ≠ EventType.error) := by
  obtain ⟨mon, lcd, rd, crn, cp, ar, cv, ts⟩ := s
  constructor
  · rcases hf with rfl | rfl <;> cases cv <;> cases lcd <;> cases rd <;>
      cases rc <;> rfl
  · rintro h hrd hcv
    obtain rfl : rd = some h := hrd
    obtain rfl : cv = false := hcv
    rcases hf with rfl | rfl <;> cases lcd <;> cases rc <;>
      simp_all [read_and_broadcast, reconnectedEvent, cardRemovedReconnectEvent]

/-- C8 amended witness: the theorem applied to the reinserted state with a
command-level fault and a failing reconnect. -/
theorem c8_data_faults_treated_as_connection_loss_witness :
    (CardFault.commandError = CardFault.dataReadError ∨
      CardFault.commandError = CardFault.commandError) ∧
    (read_and_broadcast sSecondInsert true
        (ReadResult.fault CardFault.commandError) 300 failConnect =
      read_and_broadcast sSecondInsert true
        (ReadResult.fault CardFault.cardConnectionError) 300 failConnect) :=
  ⟨Or.inr rfl,
    (c8_data_faults_treated_as_connection_loss sSecondInsert true 300 failConnect
      CardFault.commandError (Or.inr rfl)).1⟩

/-- C9: clear_cache mutates only the snapshot fields: the reader handle,
card_present, current_reader_name, monitoring and auto-read flags are
unchanged, validity is false and the record dropped afterwards, and the next
read request with a handle still held performs a hardware read instead of
serving the cache. -/
theorem c9_clear_cache_frame (s : MonitorState) (h : Nat)
    (hr : s.reader = some h) (includePhoto : Bool) (rr : ReadResult)
    (now : Nat) (rc : ConnectResult) :
    (clear_cache s).2.reader = s.reader ∧
    (clear_cache s).2.cardPresent = s.cardPresent ∧
    (clear_cache s).2.currentReaderName = s.currentReaderName ∧
    (clear_cache s).2.monitoring = s.monitoring ∧
    (clear_cache s).2.autoReadOnInsert = s.autoReadOnInsert ∧
    (clear_cache s).2.cacheValid = false ∧
    (clear_cache s).2.lastCardData = none ∧
    (read_and_broadcast (clear_cache s).2 includePhoto rr now rc).hardwareReads
        = 1 := by
  obtain ⟨mon, lcd, rd, crn, cp, ar, cv, ts⟩ := s
  obtain rfl : rd = some h := hr
  cases cv <;> cases lcd <;>
    simp [clear_cache, read_and_broadcast] <;>
    cases rr <;>
    first
      | rfl
      | (rename_i g; cases g <;> cases rc <;> rfl)

/-- C9 witness: the theorem applied to the cached state. -/
theorem c9_clear_cache_frame_witness :
    sCached.reader = some 1 ∧
    (clear_cache sCached).2.cardPresent = sCached.cardPresent ∧
    (read_and_broadcast (clear_cache sCached).2 false
        (ReadResult.ok card1) 150 failConnect).hardwareReads = 1 :=
  ⟨by decide,
    (c9_clear_cache_frame sCached 1 (by decide) false (ReadResult.ok card1) 150
      failConnect).2.1,
    (c9_clear_cache_frame sCached 1 (by decide) false (ReadResult.ok card1) 150
      failConnect).2.2.2.2.2.2.2⟩

/-- C10: when the presence check detects a removal (card previously present,
connect fails with a presence-miss fault) it clears only the validity flag:
the stored record and read timestamp are retained, a CardRemoved event is
emitted, and afterwards get_status still reports the removed card record as
last_read and the current-card query returns it with success. -/
theorem c10_removal_retains_record (s : MonitorState) (readerName : String)
    (card : ThaiIDCard) (f : CardFault) (hf : f.isPresenceMiss = true)
    (hcp : s.cardPresent = true) (hrd : s.reader = none)
    (hlc : s.lastCardData = some card)
    (rr : ReadResult) (now : Nat) (rc : ConnectResult) :
    (check_card_presence s readerName (ConnectResult.fault f) rr now
        rc).state.cacheValid = false ∧
    (check_card_presence s readerName (ConnectResult.fault f) rr now
        rc).state.lastCardData = some card ∧
    (check_card_presence s readerName (ConnectResult.fault f) rr now
        rc).state.lastReadTimestamp = s.lastReadTimestamp ∧
    (check_card_presence s readerName (ConnectResult.fault f) rr now
        rc).events = [cardRemovedEvent readerName] ∧
    (get_status (check_card_presence s readerName (ConnectResult.fault f) rr now
        rc).state).last_read = some card ∧
    api_get_current_card (check_card_presence s readerName (ConnectResult.fault f)
        rr now rc).state =
      { success := true, data := some card, error := none } := by
  obtain ⟨mon, lcd, rd, crn, cp, ar, cv, ts⟩ := s
  obtain rfl : cp = true := hcp
  obtain rfl : rd = (none : Option Nat) := hrd
  obtain rfl : lcd = some card := hlc
  cases f <;>
    simp_all [check_card_presence, CardFault.isPresenceMiss, get_status,
      api_get_current_card]

/-- C10 witness: the theorem applied to the restarted state in which the card
was pulled during the downtime. -/
theorem c10_removal_retains_record_witness :
    CardFault.isPresenceMiss CardFault.noCardDetected = true ∧
    sRestarted.cardPresent = true ∧ sRestarted.reader = none ∧
    sRestarted.lastCardData = some card1 ∧
    api_get_current_card (check_card_presence sRestarted readerA
        (ConnectResult.fault CardFault.noCardDetected) dummyRead 0
        failConnect).state =
      { success := true, data := some card1, error := none } :=
  ⟨by decide, by decide, by decide, by decide,
    (c10_removal_retains_record sRestarted readerA card1 CardFault.noCardDetected
      (by decide) (by decide) (by decide) (by decide) dummyRead 0
      failConnect).2.2.2.2.2⟩

end CardMonitorService
